import Mathlib

/-!
Shallow embedding of the client-side interaction layer of the
ramyadentistry repository (src/script.js and src/unnamed/part_000):
theme toggle, mobile navigation menu, batched scroll reveal,
deferred-media facade.  DOM state is modelled explicitly; each event
handler becomes a pure state-transition function translated line by
line from the source.
-/

namespace Ramya

/-! ## Navigation menu controller

Embeds toggleMenu from src/script.js lines 80 to 96 (identical in
src/unnamed/part_000 lines 72 to 88).  The DOM state touched by the
handler: the aria-expanded attribute of the hamburger button (an
attribute is absent or holds a string), the active class on the button
and on the menu, document.body.style.overflow, and the text of the
icon span when that span exists. -/

structure MenuDom where
  ariaExpanded : Option String
  btnActive : Bool
  menuActive : Bool
  bodyOverflow : String
  iconText : Option String
deriving Repr, DecidableEq

/-- Reads the menu-open flag exactly as line 81 of src/script.js does:
the attribute value compared with the string true. -/
def menuIsExpanded (s : MenuDom) : Bool :=
  s.ariaExpanded = some "true"

/-- The toggleMenu closure of src/script.js lines 80 to 96.
setAttribute receives the JavaScript boolean !isExpanded, which the
DOM stringifies to true or false; classList.toggle flips each active
class; body overflow becomes hidden on open and the empty string on
close; the icon span, when present, shows close or menu. -/
def toggleMenu (s : MenuDom) : MenuDom :=
  let isExpanded := menuIsExpanded s
  { ariaExpanded := some (if isExpanded then "false" else "true")
    btnActive := !s.btnActive
    menuActive := !s.menuActive
    bodyOverflow := if !isExpanded then "hidden" else ""
    iconText := s.iconText.map (fun _ => if !isExpanded then "close" else "menu") }

/-- The link click handler of src/script.js lines 105 to 109: toggle
only when the menu carries the active class. -/
def linkClick (s : MenuDom) : MenuDom :=
  if s.menuActive then toggleMenu s else s

/-- The outside click handler of src/script.js lines 112 to 118: the
click target is outside the menu and outside the button, and the menu
is active, otherwise nothing happens. -/
def outsideClick (insideMenu insideBtn : Bool) (s : MenuDom) : MenuDom :=
  if s.menuActive && !insideMenu && !insideBtn then toggleMenu s else s

/-- The Closed configuration of the spec: expanded flag not the string
true, both active classes absent, scroll unlocked. -/
def MenuClosed (s : MenuDom) : Prop :=
  s.ariaExpanded ≠ some "true" ∧ s.btnActive = false ∧
    s.menuActive = false ∧ s.bodyOverflow = ""

/-- The Open configuration of the spec: expanded flag the string true,
both active classes present, scroll locked. -/
def MenuOpen (s : MenuDom) : Prop :=
  s.ariaExpanded = some "true" ∧ s.btnActive = true ∧
    s.menuActive = true ∧ s.bodyOverflow = "hidden"

instance (s : MenuDom) : Decidable (MenuClosed s) := by
  unfold MenuClosed; infer_instance

instance (s : MenuDom) : Decidable (MenuOpen s) := by
  unfold MenuOpen; infer_instance

/-! ## Theme controller

Embeds initThemeToggle of src/script.js lines 17 to 53.  State: the
dark-mode class on the html element, the icon text (the icon node may
be absent, src/script.js line 24 guards on it), and the value stored
under the theme key in localStorage.  localStorage.setItem throws when
the store is unavailable; the handler has no try/catch, so the model
returns the state reached so far together with a thrown flag. -/

structure ThemeDom where
  darkClass : Bool
  iconPresent : Bool
  iconText : String
  stored : Option String
deriving Repr, DecidableEq

/-- The updateIcon helper of src/script.js lines 23 to 30: writes the
icon text only when the icon node exists, light sun glyph for dark
state and moon glyph for light state. -/
def updateIcon (isDark : Bool) (s : ThemeDom) : ThemeDom :=
  if s.iconPresent then
    { s with iconText := if isDark then "light_mode" else "dark_mode" }
  else s

/-- The theme click handler of src/script.js lines 42 to 51 with the
availability of localStorage made explicit.  Order follows the source:
classList.toggle first, then updateIcon, then setItem.  setItem throws
when the store is unavailable and nothing in the handler catches it,
so the returned flag records the exception propagating to the caller;
the state already mutated before the throw is kept. -/
def themeClick (storeAvailable : Bool) (s : ThemeDom) : ThemeDom × Bool :=
  let isDarkNow := !s.darkClass
  let s1 := updateIcon isDarkNow { s with darkClass := isDarkNow }
  if storeAvailable then
    ({ s1 with stored := some (if isDarkNow then "dark" else "light") }, false)
  else
    (s1, true)

/-- Falsiness of a JavaScript string-or-null value: null and the empty
string are falsy, every other string is truthy. -/
def jsFalsy : Option String → Bool
  | none => true
  | some v => v = ""

/-- The initial dark-mode decision of src/script.js line 35:
currentTheme strictly equal to dark, or currentTheme falsy and the
system prefers dark. -/
def isDarkInitial (currentTheme : Option String) (systemDark : Bool) : Bool :=
  (currentTheme = some "dark") || (jsFalsy currentTheme && systemDark)

/-- What claim C10 states word for word: dark iff the stored value is
exactly dark, or nothing is stored and the system signal is dark.
Kept separate so it can be compared with the definition read off the
source. -/
def claimedDarkInitial (currentTheme : Option String) (systemDark : Bool) : Bool :=
  (currentTheme = some "dark") || (currentTheme = none && systemDark)

/-- The theme initialization path of src/unnamed/part_000 lines 19 to
27 (first revision): updateIcon there writes themeIcon.textContent
with no presence check, so when the html element already carries the
dark-mode class and the icon node is absent the write throws a
TypeError.  The model returns the icon text on success. -/
def p0ThemeInit (htmlDark : Bool) (iconPresent : Bool) : Except Unit (Option String) :=
  if htmlDark then
    if iconPresent then Except.ok (some "light_mode") else Except.error ()
  else
    Except.ok none

/-! ## Deferred-media facade

Embeds the click handler of initMatterportFacade, src/script.js lines
157 to 174: read data-src from the iframe; when present set the src
attribute, set the facade opacity to 0 and pointer-events to none, and
schedule a timer that later sets display none. -/

structure FacadeDom where
  dataSrc : Option String
  srcAttr : Option String
  opacity : Option String
  pointerEv : Option String
  displayNone : Bool
  timerPending : Bool
deriving Repr, DecidableEq

/-- The facade click handler, src/script.js lines 157 to 174.  The
guard on line 161 is the JavaScript truthiness test if (src): nothing
happens when getAttribute returned null or the empty string; the
data-src attribute is never removed, so a later call reads the same
locator again. -/
def facadeActivate (s : FacadeDom) : FacadeDom :=
  if jsFalsy s.dataSrc then s
  else
    { s with srcAttr := s.dataSrc, opacity := some "0",
             pointerEv := some "none", timerPending := true }

/-- The facade click handler together with two change flags derived
from the state transition: whether this call changed the src attribute
and whether this call changed the facade opacity (the start of the
hide animation). -/
def facadeActivateT (s : FacadeDom) : FacadeDom × Bool × Bool :=
  let t := facadeActivate s
  (t, !(t.srcAttr = s.srcAttr), !(t.opacity = s.opacity))

/-- The deferred timer body of src/script.js lines 170 to 172: sets
display none on the facade. -/
def facadeTimerFire (s : FacadeDom) : FacadeDom :=
  if s.timerPending then { s with displayNone := true, timerPending := false } else s

/-! ## Reveal controller, immediate variant

Embeds initScrollAnimations of src/script.js lines 131 to 144: the
observer callback walks its entries and, for each intersecting entry,
adds the visible class to the target and unobserves it.  Elements are
identified by naturals; a class list is a list of element ids carrying
the visible class with set semantics (classList.add of a class already
present changes nothing); the set of observed targets is a list, and
IntersectionObserver.unobserve removes the target from it. -/

/-- One intersection-observer entry: the target element and its
isIntersecting flag. -/
structure Entry where
  target : Nat
  inter : Bool
deriving Repr, DecidableEq

/-- classList.add with DOMTokenList set semantics. -/
def addClass (l : List Nat) (e : Nat) : List Nat :=
  if e ∈ l then l else e :: l

/-- IntersectionObserver.unobserve: the target leaves the observed
set. -/
def unobserve (l : List Nat) (e : Nat) : List Nat :=
  l.filter (fun x => x ≠ e)

structure SimpleReveal where
  observed : List Nat
  visible : List Nat
deriving Repr, DecidableEq

/-- The body of the revealObserver callback of src/script.js lines 132
to 139, folded over the delivered entries: an intersecting entry gets
the visible class and is unobserved, a non-intersecting entry is
skipped. -/
def simpleCallback (s : SimpleReveal) (entries : List Entry) : SimpleReveal :=
  entries.foldl
    (fun st en =>
      if en.inter then
        { observed := unobserve st.observed en.target
          visible := addClass st.visible en.target }
      else st) s

/-- A whole sequence of observer callback invocations of the immediate
variant. -/
def simpleRun (s : SimpleReveal) (cbs : List (List Entry)) : SimpleReveal :=
  cbs.foldl simpleCallback s

/-! ## Reveal controller, batched variant

Embeds initScrollReveal of src/unnamed/part_000 lines 247 to 281
(second revision): intersecting entries are pushed onto the
visibleElements queue and unobserved; when at least one new element
qualified and no requestAnimationFrame callback is outstanding (rafId
null), one is scheduled; the frame callback adds the visible class to
every queued element, clears the queue and resets the lock. -/

structure BatchedReveal where
  observed : List Nat
  queue : List Nat
  rafPending : Bool
  visible : List Nat
deriving Repr, DecidableEq

/-- The entry loop of src/unnamed/part_000 lines 259 to 265: push the
intersecting target onto visibleElements and unobserve it. -/
def batchedEntries (s : BatchedReveal) (entries : List Entry) : BatchedReveal :=
  entries.foldl
    (fun st en =>
      if en.inter then
        { st with queue := st.queue ++ [en.target],
                  observed := unobserve st.observed en.target }
      else st) s

/-- One observer callback of the batched variant, src/unnamed/part_000
lines 256 to 274, returning the new state and how many frame callbacks
this invocation scheduled: hasNewVisible holds when some entry
intersected, and a frame callback is requested only when additionally
rafId is null. -/
def batchedCallback (s : BatchedReveal) (entries : List Entry) : BatchedReveal × Nat :=
  let s1 := batchedEntries s entries
  if entries.any (fun en => en.inter) && !s1.rafPending then
    ({ s1 with rafPending := true }, 1)
  else
    (s1, 0)

/-- A sequence of observer callbacks within one rendering frame,
accumulating the number of frame callbacks scheduled. -/
def batchedRun (s : BatchedReveal) (cbs : List (List Entry)) : BatchedReveal × Nat :=
  cbs.foldl (fun p es =>
    let q := batchedCallback p.1 es
    (q.1, p.2 + q.2)) (s, 0)

/-- The requestAnimationFrame body of src/unnamed/part_000 lines 269
to 273, run at the frame boundary when a callback is outstanding: adds
the visible class to every queued element, empties the queue, resets
the lock to null. -/
def rafFire (s : BatchedReveal) : BatchedReveal :=
  if s.rafPending then
    { s with visible := s.queue.foldl addClass s.visible,
             queue := [], rafPending := false }
  else s

/-- An element qualifies during a frame when some delivered entry
marks it intersecting. -/
def qualifies (cbs : List (List Entry)) (e : Nat) : Prop :=
  ∃ es ∈ cbs, ∃ en ∈ es, en.target = e ∧ en.inter = true

instance (cbs : List (List Entry)) (e : Nat) : Decidable (qualifies cbs e) := by
  unfold qualifies; infer_instance

/-- The list of targets a single callback invocation pushes onto the
queue: the intersecting entries, in delivery order. -/
def qualTargets (es : List Entry) : List Nat :=
  (es.filter (fun en => en.inter)).map (fun en => en.target)

/-! ## Lemmas about class lists and the batched queue -/

theorem mem_addClass (v : List Nat) (a e : Nat) :
    e ∈ addClass v a ↔ e ∈ v ∨ e = a := by
  unfold addClass
  split
  · rename_i h
    constructor
    · exact fun hm => Or.inl hm
    · rintro (hm | rfl)
      · exact hm
      · exact h
  · simp [List.mem_cons, or_comm]

theorem mem_addClass_of_mem (v : List Nat) (a e : Nat) (h : e ∈ v) :
    e ∈ addClass v a := (mem_addClass v a e).mpr (Or.inl h)

theorem addClass_of_mem (v : List Nat) (e : Nat) (h : e ∈ v) :
    addClass v e = v := by
  unfold addClass
  simp [h]

theorem mem_foldl_addClass (l : List Nat) (v : List Nat) (e : Nat) :
    e ∈ l.foldl addClass v ↔ e ∈ v ∨ e ∈ l := by
  induction l generalizing v with
  | nil => simp
  | cons a t ih =>
      simp only [List.foldl_cons, ih, mem_addClass, List.mem_cons]
      tauto

theorem not_mem_unobserve (l : List Nat) (e : Nat) :
    e ∉ unobserve l e := by
  unfold unobserve
  simp

theorem mem_unobserve (l : List Nat) (a e : Nat) :
    e ∈ unobserve l a ↔ e ∈ l ∧ e ≠ a := by
  unfold unobserve
  simp

theorem batchedEntries_visible (s : BatchedReveal) (es : List Entry) :
    (batchedEntries s es).visible = s.visible := by
  induction es generalizing s with
  | nil => rfl
  | cons en t ih =>
      unfold batchedEntries at ih ⊢
      simp only [List.foldl_cons]
      split <;> exact ih _

theorem batchedEntries_rafPending (s : BatchedReveal) (es : List Entry) :
    (batchedEntries s es).rafPending = s.rafPending := by
  induction es generalizing s with
  | nil => rfl
  | cons en t ih =>
      unfold batchedEntries at ih ⊢
      simp only [List.foldl_cons]
      split <;> exact ih _

theorem batchedEntries_queue (s : BatchedReveal) (es : List Entry) :
    (batchedEntries s es).queue = s.queue ++ qualTargets es := by
  induction es generalizing s with
  | nil => simp [batchedEntries, qualTargets]
  | cons en t ih =>
      unfold batchedEntries at ih ⊢
      simp only [List.foldl_cons]
      by_cases h : en.inter = true
      · simp only [h, if_true]
        rw [ih]
        simp [qualTargets, h]
      · simp only [h, if_false]
        rw [ih]
        simp [qualTargets, h]

theorem batchedCallback_spec (s : BatchedReveal) (es : List Entry) :
    (batchedCallback s es).1.rafPending
        = (s.rafPending || es.any (fun en => en.inter)) ∧
      (batchedCallback s es).2
        = (if es.any (fun en => en.inter) && !s.rafPending then 1 else 0) ∧
      (batchedCallback s es).1.visible = s.visible ∧
      (batchedCallback s es).1.queue = s.queue ++ qualTargets es := by
  cases hA : es.any (fun en => en.inter) <;> cases hP : s.rafPending <;>
    simp [batchedCallback, batchedEntries_visible, batchedEntries_rafPending,
      batchedEntries_queue, hA, hP]

theorem batchedRun_shift (a : BatchedReveal) (n : Nat) (t : List (List Entry)) :
    t.foldl (fun p es =>
        let q := batchedCallback p.1 es
        (q.1, p.2 + q.2)) (a, n)
      = ((batchedRun a t).1, n + (batchedRun a t).2) := by
  induction t generalizing a n with
  | nil => simp [batchedRun]
  | cons es t ih =>
      simp only [batchedRun, List.foldl_cons]
      rw [ih, ih]
      simp [Nat.add_assoc]

theorem batchedRun_spec (s : BatchedReveal) (cbs : List (List Entry)) :
    (batchedRun s cbs).1.rafPending
        = (s.rafPending || cbs.any (fun es => es.any (fun en => en.inter))) ∧
      (batchedRun s cbs).2
        = (if cbs.any (fun es => es.any (fun en => en.inter)) && !s.rafPending
            then 1 else 0) ∧
      (batchedRun s cbs).1.visible = s.visible ∧
      (batchedRun s cbs).1.queue = s.queue ++ (cbs.map qualTargets).flatten := by
  induction cbs generalizing s with
  | nil => simp [batchedRun]
  | cons es t ih =>
      obtain ⟨cp, cc, cv, cq⟩ := batchedCallback_spec s es
      have hrun : batchedRun s (es :: t)
          = ((batchedRun (batchedCallback s es).1 t).1,
             (batchedCallback s es).2 + (batchedRun (batchedCallback s es).1 t).2) := by
        simp only [batchedRun, List.foldl_cons]
        rw [batchedRun_shift]
        simp [batchedRun]
      obtain ⟨ip, ic, iv, iq⟩ := ih (batchedCallback s es).1
      refine ⟨?_, ?_, ?_, ?_⟩
      · rw [hrun]
        simp only [ip, cp, List.any_cons]
        cases s.rafPending <;> cases es.any (fun en => en.inter) <;> simp
      · cases hP : s.rafPending <;>
          cases hA : es.any (fun en => en.inter) <;>
            cases hT : t.any (fun es => es.any (fun en => en.inter)) <;>
              (rw [hrun]; simp [ic, cc, cp, hP, hA, hT])
      · rw [hrun]
        simp only [iv, cv]
      · rw [hrun]
        simp only [iq, cq, List.map_cons, List.flatten]
        simp [List.append_assoc]

theorem mem_flatten_qualTargets (cbs : List (List Entry)) (e : Nat) :
    e ∈ (cbs.map qualTargets).flatten ↔ qualifies cbs e := by
  simp only [List.mem_flatten, List.mem_map, qualifies, qualTargets]
  constructor
  · rintro ⟨l, ⟨es, hes, rfl⟩, hm⟩
    simp only [List.mem_map, List.mem_filter] at hm
    obtain ⟨en, ⟨hen, hi⟩, rfl⟩ := hm
    exact ⟨es, hes, en, hen, rfl, hi⟩
  · rintro ⟨es, hes, en, hen, rfl, hi⟩
    refine ⟨qualTargets es, ⟨es, hes, rfl⟩, ?_⟩
    simp only [qualTargets, List.mem_map, List.mem_filter]
    exact ⟨en, ⟨hen, hi⟩, rfl⟩

theorem simpleCallback_visible_mono (s : SimpleReveal) (es : List Entry) (e : Nat)
    (h : e ∈ s.visible) : e ∈ (simpleCallback s es).visible := by
  induction es generalizing s with
  | nil => exact h
  | cons en t ih =>
      unfold simpleCallback at ih ⊢
      simp only [List.foldl_cons]
      split
      · exact ih _ (mem_addClass_of_mem _ _ _ h)
      · exact ih _ h

theorem simpleCallback_observed_antitone (s : SimpleReveal) (es : List Entry) (e : Nat)
    (h : e ∉ s.observed) : e ∉ (simpleCallback s es).observed := by
  induction es generalizing s with
  | nil => exact h
  | cons en t ih =>
      unfold simpleCallback at ih ⊢
      simp only [List.foldl_cons]
      split
      · refine ih _ ?_
        intro hm
        exact h ((mem_unobserve _ _ _).mp hm).1
      · exact ih _ h

theorem simpleCallback_cancels (s : SimpleReveal) (es : List Entry) (e : Nat)
    (h : ∃ en ∈ es, en.target = e ∧ en.inter = true) :
    e ∉ (simpleCallback s es).observed := by
  induction es generalizing s with
  | nil => simp at h
  | cons en t ih =>
      unfold simpleCallback at ih ⊢
      simp only [List.foldl_cons]
      rcases h with ⟨en2, hmem, htgt, hint⟩
      rcases List.mem_cons.mp hmem with rfl | hmem2
      · rw [if_pos hint]
        subst htgt
        refine simpleCallback_observed_antitone _ t _ ?_
        exact not_mem_unobserve _ _
      · split
        · exact ih _ ⟨en2, hmem2, htgt, hint⟩
        · exact ih _ ⟨en2, hmem2, htgt, hint⟩

theorem simpleRun_visible_mono (s : SimpleReveal) (cbs : List (List Entry)) (e : Nat)
    (h : e ∈ s.visible) : e ∈ (simpleRun s cbs).visible := by
  induction cbs generalizing s with
  | nil => exact h
  | cons es t ih =>
      unfold simpleRun at ih ⊢
      simp only [List.foldl_cons]
      exact ih _ (simpleCallback_visible_mono s es e h)

/-! ## Claim theorems -/

/-- C1: within a single rendering frame, intersecting entries are
buffered into the visibleElements queue, exactly one
requestAnimationFrame commit is scheduled across the whole sequence of
observer callbacks (the rafId lock blocks a second one), and the
commit at the frame boundary promotes exactly the union of the
buffered elements to visible, then drains the queue and releases the
lock. -/
theorem batched_single_commit (s : BatchedReveal) (cbs : List (List Entry))
    (hp : s.rafPending = false) (hq : s.queue = [])
    (hx : ∃ es ∈ cbs, ∃ en ∈ es, en.inter = true) :
    (batchedRun s cbs).2 = 1 ∧
      (batchedRun s cbs).1.rafPending = true ∧
      (∀ e, e ∈ (batchedRun s cbs).1.queue ↔ qualifies cbs e) ∧
      (batchedRun s cbs).1.visible = s.visible ∧
      (∀ e, e ∈ (rafFire (batchedRun s cbs).1).visible ↔
        (e ∈ s.visible ∨ qualifies cbs e)) ∧
      (rafFire (batchedRun s cbs).1).queue = [] ∧
      (rafFire (batchedRun s cbs).1).rafPending = false := by
  obtain ⟨rp, rc, rv, rq⟩ := batchedRun_spec s cbs
  have hany : cbs.any (fun es => es.any (fun en => en.inter)) = true := by
    rcases hx with ⟨es, hes, en, hen, hi⟩
    simp only [List.any_eq_true]
    exact ⟨es, hes, en, hen, hi⟩
  have hpend : (batchedRun s cbs).1.rafPending = true := by
    rw [rp, hp, hany]; rfl
  have hqueue : (batchedRun s cbs).1.queue = (cbs.map qualTargets).flatten := by
    rw [rq, hq]; rfl
  have hfire : rafFire (batchedRun s cbs).1
      = { (batchedRun s cbs).1 with
            visible := (batchedRun s cbs).1.queue.foldl addClass
              (batchedRun s cbs).1.visible,
            queue := [], rafPending := false } := by
    unfold rafFire
    rw [if_pos hpend]
  refine ⟨?_, hpend, ?_, rv, ?_, ?_, ?_⟩
  · rw [rc, hp, hany]; rfl
  · intro e
    rw [hqueue]
    exact mem_flatten_qualTargets cbs e
  · intro e
    rw [hfire]
    simp only
    rw [mem_foldl_addClass, hqueue, rv, mem_flatten_qualTargets]
  · rw [hfire]
  · rw [hfire]

/-- C1 witness: two callbacks in one frame, targets 1 and 3
qualifying, target 2 not; one commit is scheduled and the frame
boundary reveals exactly the union. -/
theorem batched_single_commit_witness :
    (batchedRun ⟨[1, 2, 3], [], false, []⟩
        [[⟨1, true⟩, ⟨2, false⟩], [⟨3, true⟩]]).2 = 1 ∧
      (3 ∈ (rafFire (batchedRun ⟨[1, 2, 3], [], false, []⟩
          [[⟨1, true⟩, ⟨2, false⟩], [⟨3, true⟩]]).1).visible ↔
        (3 ∈ ([] : List Nat) ∨
          qualifies [[⟨1, true⟩, ⟨2, false⟩], [⟨3, true⟩]] 3)) :=
  ⟨(batched_single_commit ⟨[1, 2, 3], [], false, []⟩
      [[⟨1, true⟩, ⟨2, false⟩], [⟨3, true⟩]] rfl rfl (by decide)).1,
   (batched_single_commit ⟨[1, 2, 3], [], false, []⟩
      [[⟨1, true⟩, ⟨2, false⟩], [⟨3, true⟩]] rfl rfl (by decide)).2.2.2.2.1 3⟩

/-- C2: a revealable element fires at most once.  An intersecting
entry for the element unobserves it within the same callback; once the
element carries the visible class no later callback sequence removes
it (monotone in the immediate variant and across a batched frame), and
re-processing an intersecting entry for an already-visible element
leaves the class list exactly as it was, so no duplicate commit
happens. -/
theorem reveal_fires_at_most_once (e : Nat) :
    (∀ (s : SimpleReveal) (es : List Entry),
        (∃ en ∈ es, en.target = e ∧ en.inter = true) →
          e ∉ (simpleCallback s es).observed) ∧
      (∀ (s : SimpleReveal) (cbs : List (List Entry)),
        e ∈ s.visible → e ∈ (simpleRun s cbs).visible) ∧
      (∀ s : SimpleReveal, e ∈ s.visible →
        (simpleCallback s [⟨e, true⟩]).visible = s.visible) ∧
      (∀ (b : BatchedReveal) (cbs : List (List Entry)),
        e ∈ b.visible → e ∈ (rafFire (batchedRun b cbs).1).visible) := by
  refine ⟨fun s es h => simpleCallback_cancels s es e h,
    fun s cbs h => simpleRun_visible_mono s cbs e h, ?_, ?_⟩
  · intro s h
    simp [simpleCallback, addClass_of_mem _ _ h]
  · intro b cbs h
    obtain ⟨_, _, rv, _⟩ := batchedRun_spec b cbs
    unfold rafFire
    split
    · simp only
      rw [mem_foldl_addClass, rv]
      exact Or.inl h
    · rw [rv]
      exact h

/-- C2 witness: element 7 revealed by one entry stays revealed and
observed no longer, and a repeated intersection for it changes
nothing. -/
theorem reveal_fires_at_most_once_witness :
    7 ∉ (simpleCallback ⟨[7], []⟩ [⟨7, true⟩]).observed ∧
      7 ∈ (simpleRun ⟨[], [7]⟩ [[⟨7, true⟩], [⟨9, true⟩]]).visible ∧
      (simpleCallback ⟨[], [7]⟩ [⟨7, true⟩]).visible = [7] ∧
      7 ∈ (rafFire (batchedRun ⟨[], [], false, [7]⟩ [[⟨9, true⟩]]).1).visible :=
  ⟨(reveal_fires_at_most_once 7).1 ⟨[7], []⟩ [⟨7, true⟩] (by decide),
   (reveal_fires_at_most_once 7).2.1 ⟨[], [7]⟩ [[⟨7, true⟩], [⟨9, true⟩]] (by decide),
   (reveal_fires_at_most_once 7).2.2.1 ⟨[], [7]⟩ (by decide),
   (reveal_fires_at_most_once 7).2.2.2 ⟨[], [], false, [7]⟩ [[⟨9, true⟩]] (by decide)⟩

/-- C3: from a Closed menu configuration one trigger activation
reaches the Open configuration, with the expanded indicator the string
true, both active classes present and body scroll locked; a second
activation reaches Closed again with the indicator the string false,
both classes absent and scroll restored. -/
theorem menu_toggle_symmetry (s : MenuDom) (h : MenuClosed s) :
    MenuOpen (toggleMenu s) ∧
      (toggleMenu (toggleMenu s)).ariaExpanded = some "false" ∧
      (toggleMenu (toggleMenu s)).btnActive = false ∧
      (toggleMenu (toggleMenu s)).menuActive = false ∧
      (toggleMenu (toggleMenu s)).bodyOverflow = "" := by
  obtain ⟨h1, h2, h3, h4⟩ := h
  have he : menuIsExpanded s = false := by
    simp [menuIsExpanded, h1]
  have hopen : toggleMenu s
      = { ariaExpanded := some "true", btnActive := !s.btnActive,
          menuActive := !s.menuActive, bodyOverflow := "hidden",
          iconText := s.iconText.map (fun _ => "close") } := by
    unfold toggleMenu
    rw [he]
    rfl
  constructor
  · rw [hopen]
    exact ⟨rfl, by rw [h2]; rfl, by rw [h3]; rfl, rfl⟩
  · rw [hopen]
    unfold toggleMenu
    simp [menuIsExpanded, h2, h3]

/-- C3 witness: the symmetry at a concrete Closed configuration. -/
theorem menu_toggle_symmetry_witness :
    MenuOpen (toggleMenu ⟨some "false", false, false, "", some "menu"⟩) ∧
      (toggleMenu (toggleMenu ⟨some "false", false, false, "", some "menu"⟩)).bodyOverflow
        = "" :=
  ⟨(menu_toggle_symmetry ⟨some "false", false, false, "", some "menu"⟩ (by decide)).1,
   (menu_toggle_symmetry ⟨some "false", false, false, "", some "menu"⟩
      (by decide)).2.2.2.2⟩

/-- C4: a link activation while the menu is not active leaves the
state untouched, and a link activation from the Open configuration
reaches the Closed configuration. -/
theorem menu_link_forced_close (s : MenuDom) :
    (s.menuActive = false → linkClick s = s) ∧
      (MenuOpen s → MenuClosed (linkClick s)) := by
  constructor
  · intro h
    unfold linkClick
    rw [h]
    rfl
  · rintro ⟨h1, h2, h3, h4⟩
    unfold linkClick
    rw [h3]
    have he : menuIsExpanded s = true := by
      simp [menuIsExpanded, h1]
    unfold toggleMenu
    rw [he]
    refine ⟨by simp, by simp [h2], by simp [h3], rfl⟩

/-- C4 witness: no-op at a concrete Closed configuration and a forced
close at a concrete Open configuration. -/
theorem menu_link_forced_close_witness :
    linkClick ⟨some "false", false, false, "", some "menu"⟩
        = ⟨some "false", false, false, "", some "menu"⟩ ∧
      MenuClosed (linkClick ⟨some "true", true, true, "hidden", some "close"⟩) :=
  ⟨(menu_link_forced_close ⟨some "false", false, false, "", some "menu"⟩).1 rfl,
   (menu_link_forced_close ⟨some "true", true, true, "hidden", some "close"⟩).2
     (by decide)⟩

/-- C9: the menu-open flag a trigger activation reads is true exactly
when the aria-expanded attribute is the string true, so a missing or
malformed attribute counts as Closed and the next activation writes
the attribute to true, locks scroll and flips both active classes
on. -/
theorem menu_expanded_read (s : MenuDom) :
    (menuIsExpanded s = true ↔ s.ariaExpanded = some "true") ∧
      (s.ariaExpanded ≠ some "true" →
        (toggleMenu s).ariaExpanded = some "true" ∧
          (toggleMenu s).bodyOverflow = "hidden" ∧
          (toggleMenu s).menuActive = !s.menuActive ∧
          (toggleMenu s).btnActive = !s.btnActive) := by
  constructor
  · simp [menuIsExpanded]
  · intro h
    have he : menuIsExpanded s = false := by
      simp [menuIsExpanded, h]
    unfold toggleMenu
    rw [he]
    exact ⟨rfl, rfl, rfl, rfl⟩

/-- C9 witness: a missing attribute and a malformed attribute both
read as not expanded, and the next activation opens. -/
theorem menu_expanded_read_witness :
    (menuIsExpanded ⟨none, false, false, "", some "menu"⟩ = true ↔
        (none : Option String) = some "true") ∧
      (toggleMenu ⟨none, false, false, "", some "menu"⟩).ariaExpanded = some "true" ∧
      (toggleMenu ⟨some "TRUE", false, false, "", some "menu"⟩).bodyOverflow
        = "hidden" :=
  ⟨(menu_expanded_read ⟨none, false, false, "", some "menu"⟩).1,
   ((menu_expanded_read ⟨none, false, false, "", some "menu"⟩).2 (by decide)).1,
   ((menu_expanded_read ⟨some "TRUE", false, false, "", some "menu"⟩).2
      (by decide)).2.1⟩

/-- C5: with the icon and the stored value consistent with the current
mode, toggling the theme twice restores the whole state: mode, icon
label and persisted value. -/
theorem theme_round_trip (s : ThemeDom)
    (hIcon : s.iconPresent = true →
      s.iconText = (if s.darkClass then "light_mode" else "dark_mode"))
    (hStored : s.stored = some (if s.darkClass then "dark" else "light")) :
    (themeClick true (themeClick true s).1).1 = s := by
  cases s with
  | mk d ip it st =>
      simp only at hIcon hStored
      cases d <;> cases ip <;> simp_all [themeClick, updateIcon]

/-- C5 witness: the round trip from a consistent light state. -/
theorem theme_round_trip_witness :
    (themeClick true (themeClick true
        ⟨false, true, "dark_mode", some "light"⟩).1).1
      = ⟨false, true, "dark_mode", some "light"⟩ :=
  theme_round_trip ⟨false, true, "dark_mode", some "light"⟩ (by decide) (by decide)

/-- C6 counterexample: with the store unavailable the click handler
of src/script.js lines 42 to 51 has no catch around setItem, so the
exception propagates to the caller, against the claim that it is
caught and swallowed; the mode flag did flip before the throw. -/
theorem theme_storage_swallow_counterexample :
    (themeClick false ⟨false, true, "dark_mode", some "light"⟩).2 = true ∧
      (themeClick false ⟨false, true, "dark_mode", some "light"⟩).1.darkClass
        = true := by
  constructor <;> rfl

/-- C6 amended: when the Preference Store is unavailable the DOM mode
flag still flips and the icon still updates, because both happen
before the persistence attempt, and the stored value stays what it
was; but the setItem exception is not caught anywhere in the handler
and propagates to the caller. -/
theorem theme_storage_unavailable (s : ThemeDom) :
    (themeClick false s).1.darkClass = !s.darkClass ∧
      (themeClick false s).1.stored = s.stored ∧
      (s.iconPresent = true →
        (themeClick false s).1.iconText
          = (if !s.darkClass then "light_mode" else "dark_mode")) ∧
      (themeClick false s).2 = true := by
  cases s with
  | mk d ip it st => cases ip <;> simp [themeClick, updateIcon]

/-- C6 amended witness: the in-session flip with a dark initial mode
and an unavailable store. -/
theorem theme_storage_unavailable_witness :
    (themeClick false ⟨true, true, "light_mode", some "dark"⟩).1.darkClass
        = !true ∧
      (themeClick false ⟨true, true, "light_mode", some "dark"⟩).1.iconText
        = (if !true then "light_mode" else "dark_mode") :=
  ⟨(theme_storage_unavailable ⟨true, true, "light_mode", some "dark"⟩).1,
   (theme_storage_unavailable ⟨true, true, "light_mode", some "dark"⟩).2.2.1 rfl⟩

/-- C7 counterexample: the first-revision theme controller of
src/unnamed/part_000 lines 19 to 27 writes themeIcon.textContent with
no presence check, so with the dark-mode class preset and the icon
node absent its initialization throws instead of degrading to a
no-op. -/
theorem missing_icon_unguarded_counterexample :
    p0ThemeInit true false = Except.error () := rfl

/-- C7 amended: the src/script.js icon updater checks the icon node
and leaves the state untouched when it is absent, but the part_000
first-revision theme initialization faults exactly when dark mode is
preset and the icon node is absent. -/
theorem missing_element_degrades (s : ThemeDom) (b : Bool)
    (h : s.iconPresent = false) :
    updateIcon b s = s ∧
      (∀ d ip : Bool,
        p0ThemeInit d ip = Except.error () ↔ (d = true ∧ ip = false)) := by
  constructor
  · unfold updateIcon
    rw [h]
    rfl
  · intro d ip
    cases d <;> cases ip <;> simp [p0ThemeInit]

/-- C7 amended witness: the guarded updater is a no-op on a concrete
iconless state, and the unguarded initialization faults only in the
dark-and-absent case. -/
theorem missing_element_degrades_witness :
    updateIcon true ⟨false, false, "dark_mode", none⟩
        = ⟨false, false, "dark_mode", none⟩ ∧
      (p0ThemeInit false false = Except.error () ↔
        (false = true ∧ false = false)) :=
  ⟨(missing_element_degrades ⟨false, false, "dark_mode", none⟩ true rfl).1,
   (missing_element_degrades ⟨false, false, "dark_mode", none⟩ true rfl).2
     false false⟩

/-- C8: from a pristine facade with a truthy locator, the first
activation changes the src attribute and the opacity, setting the
source to the locator; the second activation changes neither and
leaves the state exactly as the first left it, and the pointer-events
none written by the first click makes a second user click on the
placeholder unreachable anyway; with a falsy locator (absent, or the
empty string which the if (src) guard treats the same way) an
activation is a no-op. -/
theorem facade_single_activation :
    (∀ (s : FacadeDom) (u : String),
        s.dataSrc = some u → u ≠ "" → s.srcAttr = none → s.opacity = none →
          (facadeActivateT s).2.1 = true ∧
            (facadeActivateT s).2.2 = true ∧
            (facadeActivateT s).1.srcAttr = some u ∧
            (facadeActivateT s).1.pointerEv = some "none" ∧
            (facadeActivateT (facadeActivateT s).1).2.1 = false ∧
            (facadeActivateT (facadeActivateT s).1).2.2 = false ∧
            (facadeActivateT (facadeActivateT s).1).1 = (facadeActivateT s).1) ∧
      (∀ s : FacadeDom, jsFalsy s.dataSrc = true → facadeActivate s = s) := by
  constructor
  · intro s u h1 hu h2 h3
    cases s with
    | mk ds sa op pe dn tp =>
        simp only at h1 h2 h3
        subst h1
        subst h2
        subst h3
        simp [facadeActivateT, facadeActivate, jsFalsy, hu]
  · intro s h
    unfold facadeActivate
    rw [if_pos h]

/-- C8 witness: activation flags at a concrete pristine facade with a
truthy locator, and no-op at an absent and at an empty-string
locator. -/
theorem facade_single_activation_witness :
    (facadeActivateT ⟨some "tour", none, none, none, false, false⟩).2.1 = true ∧
      (facadeActivateT (facadeActivateT
          ⟨some "tour", none, none, none, false, false⟩).1).2.1 = false ∧
      facadeActivate ⟨none, none, none, none, false, false⟩
        = ⟨none, none, none, none, false, false⟩ ∧
      facadeActivate ⟨some "", none, none, none, false, false⟩
        = ⟨some "", none, none, none, false, false⟩ :=
  ⟨(facade_single_activation.1 ⟨some "tour", none, none, none, false, false⟩
      "tour" rfl (by decide) rfl rfl).1,
   (facade_single_activation.1 ⟨some "tour", none, none, none, false, false⟩
      "tour" rfl (by decide) rfl rfl).2.2.2.2.1,
   facade_single_activation.2 ⟨none, none, none, none, false, false⟩ rfl,
   facade_single_activation.2 ⟨some "", none, none, none, false, false⟩ (by decide)⟩

/-- C10 counterexample: a stored empty string is falsy in JavaScript,
so with the system dark signal set the code picks dark mode, while the
claim as stated picks light for every stored value other than the
exact string dark. -/
theorem dark_initial_counterexample :
    isDarkInitial (some "") true = true ∧
      claimedDarkInitial (some "") true = false := by
  constructor <;> rfl

/-- C10 amended: dark mode is selected initially iff the stored value
is exactly the string dark, or the stored value is absent or the empty
string (both falsy) and the system dark signal is set; every other
stored value yields light mode. -/
theorem dark_initial_amended (v : Option String) (sd : Bool) :
    isDarkInitial v sd
      = ((v = some "dark") || ((v = none || v = some "") && sd)) := by
  cases v <;> simp [isDarkInitial, jsFalsy]

end Ramya
